import Mathlib

/-!
# Verification of the snarkOS beacon router and account key code

A shallow embedding of `src/node/src/beacon/router.rs` and
`src/objects/src/account/account_private_key.rs` from the snarkOS repository,
together with theorems settling the specification's claims about them.

Conventions of the embedding:
* socket addresses are `Nat`;
* raw bytes are `Fin 256`;
* external collaborators (ledger, consensus/mempool, the role dispatcher
  `handle_message`, the cryptographic primitives) are passed in explicitly as
  data or functions, mirroring the trait bounds of the Rust code;
* side effects (log lines, outbound sends, transport closes, restricted-set
  inserts, consensus-lock events) are reified as an `Event` trace, emitted in
  the order the Rust statements execute them.
-/

namespace SnarkOS

/-- A byte, as in the Rust `u8`. -/
abbrev Byte := Fin 256

/-- `DisconnectReason` (from `snarkos-node-messages`); only the variants the
sampled code mentions, plus one other to keep the enum non-degenerate. -/
inductive DisconnectReason
  | protocolViolation
  | noReasonGiven
  deriving DecidableEq

/-- The two-variant `Data` payload container: an inline object or a byte
buffer to be resolved by the recipient. The object here is a block, kept as
an opaque byte blob. -/
inductive Data
  | object (block : List Byte)
  | buffer (bytes : List Byte)
  deriving DecidableEq

/-- The `PuzzleResponse` message body: the latest epoch challenge plus the
latest block wrapped in a `Data` payload. -/
structure PuzzleResponse where
  epoch_challenge : List Byte
  block : Data
  deriving DecidableEq

/-- The wire `Message` union, restricted to the variants the sampled code and
the spec's wire set use. Payloads the repository treats as opaque are byte
blobs. -/
inductive Message
  | disconnect (reason : DisconnectReason)
  | puzzleRequest
  | puzzleResponse (pr : PuzzleResponse)
  | unconfirmedSolution (solution : List Byte)
  | unconfirmedTransaction (transaction : List Byte)
  deriving DecidableEq

/-- `Message::id`: the stable per-variant identifier used for
de-duplication. -/
def Message.id : Message → Nat
  | .disconnect _ => 0
  | .puzzleRequest => 1
  | .puzzleResponse _ => 2
  | .unconfirmedSolution _ => 3
  | .unconfirmedTransaction _ => 4

/-- The observable effects of the router code, in execution order. -/
inductive Event
  | logError
  | logWarn
  | logTrace
  | send (peer : Nat) (msg : Message)
  | tcpDisconnect (peer : Nat)
  | insertRestricted (peer : Nat)
  | insertSeen (peer : Nat) (id : Nat) (nonce : Nat)
  | readEpochChallenge
  | readLatestBlock
  | releaseConsensusLock
  deriving DecidableEq

/-- Recognizes outbound-send events. -/
def Event.isSend : Event → Bool
  | .send _ _ => true
  | _ => false

/-- Recognizes transport-close events. -/
def Event.isTcpDisconnect : Event → Bool
  | .tcpDisconnect _ => true
  | _ => false

/-- Recognizes de-duplication-log inserts. -/
def Event.isInsertSeen : Event → Bool
  | .insertSeen _ _ _ => true
  | _ => false

/-- The ledger collaborator as `puzzle_request` sees it: the result of
`latest_epoch_challenge()` (an `Err` is a `Nat` error code) and the value of
`latest_block()`. -/
structure Ledger where
  latest_epoch_challenge : Except Nat (List Byte)
  latest_block : List Byte

/-- The consensus/mempool collaborator: the acceptance routines for
unconfirmed solutions and transactions. -/
structure Consensus where
  add_unconfirmed_solution : List Byte → Except Nat Unit
  add_unconfirmed_transaction : List Byte → Except Nat Unit

/-- `Routes::MAXIMUM_NUMBER_OF_PEERS` for the beacon role
(`router.rs` line 113). -/
def MAXIMUM_NUMBER_OF_PEERS : Nat := 10

/-- `Beacon::puzzle_request` (`router.rs` lines 120-140). Retrieves the
latest epoch challenge; on `Err` logs the failure and returns `false`; on
`Ok` reads the latest block, drops the consensus read scope, sends one
`PuzzleResponse` and returns `true`. Returns the event trace in statement
order together with the boolean handler verdict. -/
def puzzle_request (ledger : Ledger) (peer_ip : Nat) : List Event × Bool :=
  match ledger.latest_epoch_challenge with
  | .error _ => ([Event.readEpochChallenge, Event.logError], false)
  | .ok epoch_challenge =>
      let block := ledger.latest_block
      ([Event.readEpochChallenge, Event.readLatestBlock,
        Event.releaseConsensusLock,
        Event.send peer_ip
          (Message.puzzleResponse ⟨epoch_challenge, Data.object block⟩)],
       true)

/-- `Beacon::unconfirmed_solution` (`router.rs` lines 143-160): forwards the
solution to the mempool; a rejection is traced and the connection is
maintained; returns `true` in either case. -/
def unconfirmed_solution (consensus : Consensus) (_peer_ip : Nat)
    (solution : List Byte) : List Event × Bool :=
  match consensus.add_unconfirmed_solution solution with
  | .error _ => ([Event.logTrace], true)
  | .ok _ => ([], true)

/-- `Beacon::unconfirmed_transaction` (`router.rs` lines 163-180): forwards
the transaction to the mempool; a rejection is traced and the connection is
maintained; returns `true` in either case. -/
def unconfirmed_transaction (consensus : Consensus) (_peer_ip : Nat)
    (transaction : List Byte) : List Event × Bool :=
  match consensus.add_unconfirmed_transaction transaction with
  | .error _ => ([Event.logTrace], true)
  | .ok _ => ([], true)

/-- A connected peer's dispatcher-visible state: its de-duplication log of
`(message id, nonce)` pairs. -/
structure Peer where
  seen_messages : List (Nat × Nat)
  deriving DecidableEq

/-- Modelled from the spec: `Peer::insert_seen_message` (the `Peer` type of
`snarkos-node-router` is not under `src/`): records a `(message id, nonce)`
pair in the peer's de-duplication log. -/
def Peer.insert_seen_message (p : Peer) (id nonce : Nat) : Peer :=
  { seen_messages := (id, nonce) :: p.seen_messages }

/-- The router's shared state visible to `process_message`: the Peer Table
(an association list keyed by address) and the Restricted Set. -/
structure RouterState where
  connected_peers : List (Nat × Peer)
  restricted_peers : List Nat
  deriving DecidableEq

/-- `connected_peers.read().get(&peer_ip)`: Peer Table lookup. -/
def RouterState.lookupPeer (st : RouterState) (addr : Nat) : Option Peer :=
  (st.connected_peers.find? (fun q => q.1 = addr)).map (fun q => q.2)

/-- Replaces the entry for `addr` in the Peer Table, if present. -/
def RouterState.updatePeer (st : RouterState) (addr : Nat) (p : Peer) :
    RouterState :=
  { st with
    connected_peers :=
      st.connected_peers.map (fun q => if q.1 = addr then (addr, p) else q) }

/-- Modelled from the spec: `Router::insert_restricted_peer` (the `Router`
type of `snarkos-node-router` is not under `src/`): restriction removes the
address from the Peer Table and inserts it into the Restricted Set. -/
def RouterState.insert_restricted_peer (st : RouterState) (addr : Nat) :
    RouterState :=
  { connected_peers := st.connected_peers.filter (fun q => q.1 ≠ addr),
    restricted_peers := addr :: st.restricted_peers }

/-- `Reading::process_message` for the beacon (`router.rs` lines 86-107).
The role dispatcher `handle_message` (from `snarkos-node-router`, not under
`src/`) is passed in as the boolean verdict function it is; `nonce` stands
for the `rand::thread_rng().gen()` draw. Returns the event trace, the
updated router state, and the `io::Result<()>` value. -/
def process_message (handle_message : Nat → Message → Bool)
    (st : RouterState) (peer_ip : Nat) (message : Message) (nonce : Nat) :
    List Event × RouterState × Except Nat Unit :=
  -- Update the timestamp for the received message (only if the peer is
  -- still in the Peer Table).
  let (ev0, st0) :=
    match st.lookupPeer peer_ip with
    | some peer =>
        ([Event.insertSeen peer_ip message.id nonce],
         st.updatePeer peer_ip (peer.insert_seen_message message.id nonce))
    | none => ([], st)
  -- Process the message.
  let success := handle_message peer_ip message
  -- Disconnect if the peer violated the protocol.
  if success then
    (ev0, st0, Except.ok ())
  else
    (ev0 ++
      [Event.logWarn,
       Event.send peer_ip (Message.disconnect DisconnectReason.protocolViolation),
       Event.tcpDisconnect peer_ip,
       Event.insertRestricted peer_ip],
     st0.insert_restricted_peer peer_ip,
     Except.ok ())

/-! ### Message codec

`MessageCodec` lives in `snarkos-node-messages`, which is not under `src/`;
the framing below is modelled from the spec: a frame is a type discriminator
followed by a length-prefixed payload, each length a 4-byte little-endian
count, and nested blobs inside a payload are framed the same way. -/

/-- Builds a byte from a numeric value, reducing modulo 256. -/
def mkByte (n : Nat) : Byte := ⟨n % 256, Nat.mod_lt _ (by norm_num)⟩

/-- The 4-byte little-endian encoding of a length. -/
def natLE4 (n : Nat) : List Byte :=
  [mkByte n, mkByte (n / 256), mkByte (n / 65536), mkByte (n / 16777216)]

/-- The value of a 4-byte little-endian length field. -/
def byteVal4 (b0 b1 b2 b3 : Byte) : Nat :=
  b0.val + 256 * b1.val + 65536 * b2.val + 16777216 * b3.val

/-- Modelled from the spec: a length-prefixed blob. -/
def framed (bs : List Byte) : List Byte := natLE4 bs.length ++ bs

/-- Reads one length-prefixed blob, returning it and the remaining input;
fails on truncated input. -/
def readBlob : List Byte → Option (List Byte × List Byte)
  | b0 :: b1 :: b2 :: b3 :: rest =>
      let n := byteVal4 b0 b1 b2 b3
      if n ≤ rest.length then some (rest.take n, rest.drop n) else none
  | _ => none

/-- The wire byte for each `DisconnectReason`. -/
def encodeReason : DisconnectReason → Byte
  | .protocolViolation => mkByte 0
  | .noReasonGiven => mkByte 1

/-- Decodes a `DisconnectReason` byte; unknown values fail. -/
def decodeReason (b : Byte) : Option DisconnectReason :=
  if b.val = 0 then some DisconnectReason.protocolViolation
  else if b.val = 1 then some DisconnectReason.noReasonGiven
  else none

/-- Modelled from the spec: encoding of the two-variant `Data` payload, a
variant tag followed by the length-prefixed bytes. -/
def encodeData : Data → List Byte
  | .object b => mkByte 0 :: framed b
  | .buffer b => mkByte 1 :: framed b

/-- Decodes a `Data` payload, requiring the input to be consumed exactly. -/
def decodeData : List Byte → Option Data
  | t :: rest =>
      match readBlob rest with
      | some (payload, List.nil) =>
          if t.val = 0 then some (Data.object payload)
          else if t.val = 1 then some (Data.buffer payload)
          else none
      | _ => none
  | [] => none

/-- Modelled from the spec: `encode(Message) -> bytes`, a stable
discriminator followed by the length-prefixed payload of the variant. -/
def encode : Message → List Byte
  | .disconnect r => mkByte 0 :: framed [encodeReason r]
  | .puzzleRequest => mkByte 1 :: framed []
  | .puzzleResponse pr =>
      mkByte 2 :: framed (framed pr.epoch_challenge ++ encodeData pr.block)
  | .unconfirmedSolution s => mkByte 3 :: framed s
  | .unconfirmedTransaction t => mkByte 4 :: framed t

/-- Decodes a variant's length-delimited payload given its discriminator
byte; unknown discriminators and malformed payloads fail. -/
def decodePayload (t : Byte) (payload : List Byte) : Option Message :=
  if t.val = 0 then
    match payload with
    | [r] => (decodeReason r).map Message.disconnect
    | _ => none
  else if t.val = 1 then
    match payload with
    | [] => some Message.puzzleRequest
    | _ => none
  else if t.val = 2 then
    match readBlob payload with
    | some (ec, rest2) =>
        (decodeData rest2).map (fun d => Message.puzzleResponse ⟨ec, d⟩)
    | none => none
  else if t.val = 3 then some (Message.unconfirmedSolution payload)
  else if t.val = 4 then some (Message.unconfirmedTransaction payload)
  else none

/-- Modelled from the spec: `decode(bytes) -> Message`, the inverse of
`encode`; fails (`none`) on truncated input, unknown discriminator, or a
payload length mismatch. -/
def decode : List Byte → Option Message
  | t :: rest =>
      match readBlob rest with
      | some (payload, List.nil) => decodePayload t payload
      | _ => none
  | [] => none

/-- The 4-byte length fields bound every blob at `2^32` bytes; a message is
encodable when each of its blobs (and the composite `PuzzleResponse`
payload) fits. -/
def Message.encodable : Message → Bool
  | .disconnect _ => true
  | .puzzleRequest => true
  | .puzzleResponse pr =>
      match pr.block with
      | .object b | .buffer b =>
          pr.epoch_challenge.length + b.length + 9 < 4294967296
  | .unconfirmedSolution s => s.length < 4294967296
  | .unconfirmedTransaction t => t.length < 4294967296

/-! ### Account private keys

Embedding of `src/objects/src/account/account_private_key.rs`. The code is
generic over `C: DPCComponents`; the component types are Lean type
parameters and the cryptographic primitives the component supplies
(signature key generation, commitment, fixed-width serialization) are
bundled into `DPCOps`, mirroring the trait methods the Rust code calls.
Errors from any primitive are `Nat` codes. -/

/-- `AccountPrivateKey<C>`: the four fields of the Rust struct; `metadata`
is the `[u8; 32]` array as a byte list. -/
structure AccountPrivateKey (SK PS CR : Type) where
  sk_sig : SK
  sk_prf : PS
  r_pk : CR
  metadata : List Byte
  deriving DecidableEq

/-- The cryptographic collaborators of `DPCComponents` used by the account
code: `SK`/`PS`/`CR` are the private key, PRF seed and commitment
randomness types, `PK` the signature public key, `COut` the commitment
output, `DK` the decryption key. -/
structure DPCOps (SK PS CR PK COut DK : Type) where
  /-- `C::AccountSignature::generate_public_key`. -/
  generate_public_key : SK → Except Nat PK
  /-- `to_bytes![pk_sig, sk_prf, metadata]`: the commitment input. -/
  commit_input_bytes : PK → PS → List Byte → List Byte
  /-- `C::AccountCommitment::commit`. -/
  commit : List Byte → CR → Except Nat COut
  /-- `to_bytes![commitment]`. -/
  commitment_bytes : COut → List Byte
  /-- `C::AccountDecryptionKey::read`. -/
  read_decryption_key : List Byte → Except Nat DK

/-- `AccountPrivateKey::pk_sig`: the signature public key derived from
`sk_sig`. -/
def AccountPrivateKey.pk_sig {SK PS CR PK COut DK : Type}
    (ops : DPCOps SK PS CR PK COut DK) (k : AccountPrivateKey SK PS CR) :
    Except Nat PK :=
  ops.generate_public_key k.sk_sig

/-- `AccountPrivateKey::commitment`: commits to
`(pk_sig, sk_prf, metadata)` under randomness `r_pk`. -/
def AccountPrivateKey.commitment {SK PS CR PK COut DK : Type}
    (ops : DPCOps SK PS CR PK COut DK) (k : AccountPrivateKey SK PS CR) :
    Except Nat COut := do
  let pk ← k.pk_sig ops
  ops.commit (ops.commit_input_bytes pk k.sk_prf k.metadata) k.r_pk

/-- `AccountPrivateKey::to_decryption_key`: reads the decryption key from
the serialized commitment. -/
def AccountPrivateKey.to_decryption_key {SK PS CR PK COut DK : Type}
    (ops : DPCOps SK PS CR PK COut DK) (k : AccountPrivateKey SK PS CR) :
    Except Nat DK := do
  let c ← k.commitment ops
  ops.read_decryption_key (ops.commitment_bytes c)

/-- `AccountPrivateKey::is_valid`: the key is well-formed when
`to_decryption_key` succeeds. -/
def AccountPrivateKey.is_valid {SK PS CR PK COut DK : Type}
    (ops : DPCOps SK PS CR PK COut DK) (k : AccountPrivateKey SK PS CR) :
    Bool :=
  (k.to_decryption_key ops).isOk

/-- The rejection-sampling loop inside `AccountPrivateKey::new`: resample
`r_pk := rand i` and return the key once `is_valid` holds. The Rust loop
has no bound; `fuel` makes the possible divergence explicit (`none` = the
loop has not terminated within `fuel` samples). -/
def sample_loop {SK PS CR PK COut DK : Type}
    (ops : DPCOps SK PS CR PK COut DK) (rand : Nat → CR)
    (k : AccountPrivateKey SK PS CR) :
    Nat → Nat → Option (AccountPrivateKey SK PS CR)
  | _, 0 => none
  | i, fuel + 1 =>
      let k' := { k with r_pk := rand i }
      if k'.is_valid ops then some k'
      else sample_loop ops rand k' (i + 1) fuel

/-- `AccountPrivateKey::new`: samples `sk_sig` (whose generation may fail),
the PRF seed (whose byte read may fail), an initial `r_pk`, then rejection-
samples `r_pk` until `is_valid` holds. The RNG is the explicit stream
`rand`; draw `0` is the initial (never-checked) `r_pk` and draws `1, 2, …`
feed the loop. -/
def AccountPrivateKey.new {SK PS CR PK COut DK : Type}
    (ops : DPCOps SK PS CR PK COut DK)
    (generate_private_key : Except Nat SK) (read_seed : Except Nat PS)
    (rand : Nat → CR) (metadata : List Byte) (fuel : Nat) :
    Except Nat (Option (AccountPrivateKey SK PS CR)) :=
  match generate_private_key with
  | .error e => .error e
  | .ok sk_sig =>
      match read_seed with
      | .error e => .error e
      | .ok sk_prf =>
          let r_pk := rand 0
          let private_key : AccountPrivateKey SK PS CR :=
            ⟨sk_sig, sk_prf, r_pk, metadata⟩
          .ok (sample_loop ops rand private_key 1 fuel)

/-- `AccountError`: the variants `from_str` can produce before field
parsing. -/
inductive AccountError
  | invalidByteLength (len : Nat)
  | invalidPrefixBytes (bytes : List Byte)
  deriving DecidableEq

/-- Modelled from the spec: `account_format::PRIVATE_KEY_PREFIX` (the
`account_format` module is not under `src/`); a fixed 4-byte tag, the
concrete value being immaterial to the claims. -/
def privateKeyTag : List Byte := [mkByte 127, mkByte 134, mkByte 189, mkByte 116]

/-- `FromStr::from_str` after the external base58 decoding (`s.from_base58()`
is the external `base58` crate): checks the decoded length is exactly 132,
then the 4-byte tag, then reads `sk_sig`, `sk_prf`, `metadata`, `r_pk` as
consecutive 32-byte fields. -/
def from_str_bytes (data : List Byte) :
    Except AccountError
      (AccountPrivateKey (List Byte) (List Byte) (List Byte)) :=
  if data.length ≠ 132 then
    Except.error (AccountError.invalidByteLength data.length)
  else if data.take 4 ≠ privateKeyTag then
    Except.error (AccountError.invalidPrefixBytes (data.take 4))
  else
    let reader := data.drop 4
    Except.ok
      { sk_sig := reader.take 32,
        sk_prf := (reader.drop 32).take 32,
        metadata := (reader.drop 64).take 32,
        r_pk := (reader.drop 96).take 32 }

/-! ### Concrete exemplars used by witnesses and counterexamples -/

/-- A dispatcher verdict that flags every message as a violation. -/
def denyAll : Nat → Message → Bool := fun _ _ => false

/-- A ledger whose epoch-challenge lookup fails with error code 7. -/
def errLedger : Ledger :=
  { latest_epoch_challenge := Except.error 7, latest_block := [] }

/-- A ledger whose epoch-challenge lookup succeeds. -/
def okLedger : Ledger :=
  { latest_epoch_challenge := Except.ok [mkByte 5], latest_block := [mkByte 9] }

/-- A router state with an empty Peer Table and Restricted Set. -/
def emptyRouter : RouterState :=
  { connected_peers := [], restricted_peers := [] }

/-- Concrete `DPCOps` over `Nat` components: a commitment succeeds exactly
on even randomness, so validity of a key is decidable by parity of
`r_pk`. -/
def natOps : DPCOps Nat Nat Nat Nat Nat Nat :=
  { generate_public_key := fun s => Except.ok s,
    commit_input_bytes := fun _ _ _ => [],
    commit := fun _ r => if r % 2 = 0 then Except.ok r else Except.error 0,
    commitment_bytes := fun _ => [],
    read_decryption_key := fun _ => Except.ok 0 }

/-! ### Helper lemmas -/

/-- Length of a framed blob: four length bytes plus the payload. -/
theorem framed_length (bs : List Byte) : (framed bs).length = 4 + bs.length := by
  simp [framed, natLE4]
  omega

/-- Reading a framed blob followed by arbitrary bytes recovers the blob and
the remainder, whenever the blob fits the 4-byte length field. -/
theorem readBlob_framed (bs rest : List Byte) (h : bs.length < 4294967296) :
    readBlob (framed bs ++ rest) = some (bs, rest) := by
  have hval : bs.length % 256 + 256 * (bs.length / 256 % 256) +
      65536 * (bs.length / 65536 % 256) +
      16777216 * (bs.length / 16777216 % 256) = bs.length := by omega
  simp only [framed, natLE4, List.cons_append, List.nil_append, List.append_assoc]
  simp only [readBlob, byteVal4, mkByte]
  rw [hval]
  rw [if_pos (by simp)]
  rw [List.take_left, List.drop_left]

/-- Special case: a lone framed blob reads back exactly. -/
theorem readBlob_framed_nil (bs : List Byte) (h : bs.length < 4294967296) :
    readBlob (framed bs) = some (bs, []) := by
  have := readBlob_framed bs [] h
  simpa using this

/-- Decoding inverts `encodeData` when the buffer fits the length field. -/
theorem decodeData_encodeData (d : Data)
    (h : (match d with | .object b => b.length | .buffer b => b.length) <
      4294967296) :
    decodeData (encodeData d) = some d := by
  cases d with
  | object b =>
      simp only [encodeData, decodeData]
      rw [readBlob_framed_nil b h]
      simp [mkByte]
  | buffer b =>
      simp only [encodeData, decodeData]
      rw [readBlob_framed_nil b h]
      simp [mkByte]

/-- The rejection-sampling loop only ever returns a key that `is_valid`
accepts. -/
theorem sample_loop_valid {SK PS CR PK COut DK : Type}
    (ops : DPCOps SK PS CR PK COut DK) (rand : Nat → CR) :
    ∀ (fuel i : Nat) (k k' : AccountPrivateKey SK PS CR),
      sample_loop ops rand k i fuel = some k' → k'.is_valid ops = true := by
  intro fuel
  induction fuel with
  | zero => intro i k k' h; simp [sample_loop] at h
  | succ n ih =>
      intro i k k' h
      simp only [sample_loop] at h
      by_cases hv :
          (AccountPrivateKey.is_valid ops { k with r_pk := rand i }) = true
      · rw [if_pos hv] at h
        cases h
        exact hv
      · rw [if_neg hv] at h
        exact ih (i + 1) { k with r_pk := rand i } k' h

/-! ### Claim theorems -/

/-- C1, counterexample: with a ledger whose `latest_epoch_challenge` fails,
`puzzle_request` returns `false`, not `true` as the claim states — the
failure is reported to the dispatcher as a protocol violation. -/
theorem puzzle_request_err_cex : (puzzle_request errLedger 0).2 = false := rfl

/-- C1, amended: when the epoch-challenge lookup fails, `puzzle_request`
logs the failure and sends no outbound message, but returns `false`, so the
dispatcher treats the request as a protocol violation (disconnect and
restrict) rather than preserving the connection. -/
theorem puzzle_request_err_logs_sends_nothing_returns_false
    (ledger : Ledger) (peer_ip e : Nat)
    (h : ledger.latest_epoch_challenge = Except.error e) :
    (puzzle_request ledger peer_ip).1.filter Event.isSend = [] ∧
    Event.logError ∈ (puzzle_request ledger peer_ip).1 ∧
    (puzzle_request ledger peer_ip).2 = false := by
  simp [puzzle_request, h, Event.isSend]

/-- C1, witness at the concrete failing ledger. -/
theorem puzzle_request_err_witness :
    (puzzle_request errLedger 0).1.filter Event.isSend = [] ∧
    Event.logError ∈ (puzzle_request errLedger 0).1 ∧
    (puzzle_request errLedger 0).2 = false :=
  puzzle_request_err_logs_sends_nothing_returns_false errLedger 0 7 rfl

/-- C2, counterexample: a message from an address absent from the Peer
Table is not dropped — the route handler still runs, and here its `false`
verdict triggers the full violation pipeline (warn, Disconnect send,
transport close, restriction). -/
theorem process_message_absent_peer_cex :
    (process_message denyAll emptyRouter 0 Message.puzzleRequest 0).1 =
      [Event.logWarn,
       Event.send 0 (Message.disconnect DisconnectReason.protocolViolation),
       Event.tcpDisconnect 0,
       Event.insertRestricted 0] ∧
    (process_message denyAll emptyRouter 0 Message.puzzleRequest 0).2.1.restricted_peers =
      [0] := by
  constructor <;> rfl

/-- C2, amended: when the sender has no Peer Table entry, no de-duplication
entry is recorded and no error is raised, but the message is still
delegated to the route handler, whose verdict decides between no effects
and the violation pipeline. -/
theorem process_message_absent_peer_no_dedup
    (handle_message : Nat → Message → Bool) (st : RouterState)
    (peer_ip nonce : Nat) (message : Message)
    (h : st.lookupPeer peer_ip = none) :
    process_message handle_message st peer_ip message nonce =
      if handle_message peer_ip message then ([], st, Except.ok ())
      else
        ([Event.logWarn,
          Event.send peer_ip
            (Message.disconnect DisconnectReason.protocolViolation),
          Event.tcpDisconnect peer_ip,
          Event.insertRestricted peer_ip],
         st.insert_restricted_peer peer_ip, Except.ok ()) := by
  simp only [process_message, h]
  by_cases hm : handle_message peer_ip message = true
  · simp [hm]
  · simp [hm]

/-- C2, witness at a concrete absent peer. -/
theorem process_message_absent_peer_witness :
    process_message denyAll emptyRouter 0 Message.puzzleRequest 0 =
      if denyAll 0 Message.puzzleRequest then ([], emptyRouter, Except.ok ())
      else
        ([Event.logWarn,
          Event.send 0 (Message.disconnect DisconnectReason.protocolViolation),
          Event.tcpDisconnect 0,
          Event.insertRestricted 0],
         emptyRouter.insert_restricted_peer 0, Except.ok ()) :=
  process_message_absent_peer_no_dedup denyAll emptyRouter 0 0
    Message.puzzleRequest rfl

/-- C3: whenever the route handler's verdict is `false`, `process_message`
sends exactly one `Disconnect{ProtocolViolation}` to the offending peer,
closes the transport to that peer exactly once, inserts the peer into the
Restricted Set, and still returns `Ok` (the best-effort send cannot
escalate a failure). -/
theorem process_message_violation_pipeline
    (handle_message : Nat → Message → Bool) (st : RouterState)
    (peer_ip nonce : Nat) (message : Message)
    (h : handle_message peer_ip message = false) :
    (process_message handle_message st peer_ip message nonce).1.filter
        Event.isSend =
      [Event.send peer_ip
        (Message.disconnect DisconnectReason.protocolViolation)] ∧
    (process_message handle_message st peer_ip message nonce).1.filter
        Event.isTcpDisconnect =
      [Event.tcpDisconnect peer_ip] ∧
    (process_message handle_message st peer_ip message nonce).2.1.restricted_peers =
      peer_ip :: st.restricted_peers ∧
    (process_message handle_message st peer_ip message nonce).2.2 =
      Except.ok () := by
  simp only [process_message, h]
  cases hp : st.lookupPeer peer_ip with
  | none =>
      simp [Event.isSend, Event.isTcpDisconnect,
        RouterState.insert_restricted_peer]
  | some peer =>
      simp [Event.isSend, Event.isTcpDisconnect,
        RouterState.insert_restricted_peer, RouterState.updatePeer]

/-- C3, witness: a deny-all handler on the empty router state. -/
theorem process_message_violation_pipeline_witness :
    (process_message denyAll emptyRouter 3 Message.puzzleRequest 0).1.filter
        Event.isSend =
      [Event.send 3
        (Message.disconnect DisconnectReason.protocolViolation)] ∧
    (process_message denyAll emptyRouter 3 Message.puzzleRequest 0).1.filter
        Event.isTcpDisconnect =
      [Event.tcpDisconnect 3] ∧
    (process_message denyAll emptyRouter 3 Message.puzzleRequest 0).2.1.restricted_peers =
      3 :: emptyRouter.restricted_peers ∧
    (process_message denyAll emptyRouter 3 Message.puzzleRequest 0).2.2 =
      Except.ok () :=
  process_message_violation_pipeline denyAll emptyRouter 3 0
    Message.puzzleRequest rfl

/-- C4: for every consensus collaborator, peer and payload,
`unconfirmed_solution` and `unconfirmed_transaction` return `true`, and
their only possible effect is a local trace log on rejection — never a
send, transport close or restriction. -/
theorem unconfirmed_handlers_always_true (consensus : Consensus)
    (peer_ip : Nat) (solution transaction : List Byte) :
    (unconfirmed_solution consensus peer_ip solution).2 = true ∧
    (unconfirmed_transaction consensus peer_ip transaction).2 = true ∧
    ((unconfirmed_solution consensus peer_ip solution).1 = [] ∨
      (unconfirmed_solution consensus peer_ip solution).1 =
        [Event.logTrace]) ∧
    ((unconfirmed_transaction consensus peer_ip transaction).1 = [] ∨
      (unconfirmed_transaction consensus peer_ip transaction).1 =
        [Event.logTrace]) := by
  refine ⟨?_, ?_, ?_, ?_⟩
  · cases h : consensus.add_unconfirmed_solution solution <;>
      simp [unconfirmed_solution, h]
  · cases h : consensus.add_unconfirmed_transaction transaction <;>
      simp [unconfirmed_transaction, h]
  · cases h : consensus.add_unconfirmed_solution solution <;>
      simp [unconfirmed_solution, h]
  · cases h : consensus.add_unconfirmed_transaction transaction <;>
      simp [unconfirmed_transaction, h]

/-- C5: when the epoch-challenge lookup succeeds with challenge `E` and the
latest block is `B`, `puzzle_request` produces exactly the trace that reads
the challenge, reads the block, releases the consensus read scope, and only
then sends the single `PuzzleResponse{E, Object(B)}` to the requester, and
it returns `true`. -/
theorem puzzle_request_ok_sends_response (ledger : Ledger)
    (peer_ip : Nat) (ec : List Byte)
    (h : ledger.latest_epoch_challenge = Except.ok ec) :
    puzzle_request ledger peer_ip =
      ([Event.readEpochChallenge, Event.readLatestBlock,
        Event.releaseConsensusLock,
        Event.send peer_ip
          (Message.puzzleResponse ⟨ec, Data.object ledger.latest_block⟩)],
       true) := by
  simp [puzzle_request, h]

/-- C5, witness at the concrete succeeding ledger. -/
theorem puzzle_request_ok_witness :
    puzzle_request okLedger 1 =
      ([Event.readEpochChallenge, Event.readLatestBlock,
        Event.releaseConsensusLock,
        Event.send 1
          (Message.puzzleResponse
            ⟨[mkByte 5], Data.object okLedger.latest_block⟩)],
       true) :=
  puzzle_request_ok_sends_response okLedger 1 [mkByte 5] rfl

/-- C7: the beacon role's maximum connected-peer count is the constant
10. -/
theorem maximum_number_of_peers_is_ten : MAXIMUM_NUMBER_OF_PEERS = 10 := rfl

/-- C8: `process_message` returns `Ok(())` for every state, dispatcher,
peer and message — no inbound message, including one that triggers the
violation pipeline, surfaces an error to the read loop. -/
theorem process_message_never_errors
    (handle_message : Nat → Message → Bool) (st : RouterState)
    (peer_ip nonce : Nat) (message : Message) :
    (process_message handle_message st peer_ip message nonce).2.2 =
      Except.ok () := by
  simp only [process_message]
  cases st.lookupPeer peer_ip <;>
    cases handle_message peer_ip message <;> simp

/-- C6: the message codec round-trips — decoding the encoding of any
encodable message recovers the message exactly. Both `encode` and `decode`
are Lean functions, hence deterministic in their input by construction. -/
theorem decode_encode (m : Message) (h : m.encodable = true) :
    decode (encode m) = some m := by
  cases m with
  | disconnect r => cases r <;> decide
  | puzzleRequest => decide
  | puzzleResponse pr =>
      obtain ⟨ec, blk⟩ := pr
      cases blk with
      | object b =>
          simp only [Message.encodable, decide_eq_true_eq] at h
          simp only [encode, decode]
          rw [readBlob_framed_nil (framed ec ++ encodeData (Data.object b))
            (by simp [framed_length, encodeData]; omega)]
          simp only [decodePayload, mkByte]
          norm_num
          rw [readBlob_framed ec (encodeData (Data.object b)) (by omega)]
          show Option.map (fun d => Message.puzzleResponse ⟨ec, d⟩)
              (decodeData (encodeData (Data.object b))) =
            some (Message.puzzleResponse ⟨ec, Data.object b⟩)
          rw [decodeData_encodeData (Data.object b)
            (by show b.length < 4294967296; omega)]
          rfl
      | buffer b =>
          simp only [Message.encodable, decide_eq_true_eq] at h
          simp only [encode, decode]
          rw [readBlob_framed_nil (framed ec ++ encodeData (Data.buffer b))
            (by simp [framed_length, encodeData]; omega)]
          simp only [decodePayload, mkByte]
          norm_num
          rw [readBlob_framed ec (encodeData (Data.buffer b)) (by omega)]
          show Option.map (fun d => Message.puzzleResponse ⟨ec, d⟩)
              (decodeData (encodeData (Data.buffer b))) =
            some (Message.puzzleResponse ⟨ec, Data.buffer b⟩)
          rw [decodeData_encodeData (Data.buffer b)
            (by show b.length < 4294967296; omega)]
          rfl
  | unconfirmedSolution s =>
      simp only [Message.encodable, decide_eq_true_eq] at h
      simp only [encode, decode]
      rw [readBlob_framed_nil s h]
      rfl
  | unconfirmedTransaction t =>
      simp only [Message.encodable, decide_eq_true_eq] at h
      simp only [encode, decode]
      rw [readBlob_framed_nil t h]
      rfl

/-- C6, witness: the round-trip at a representative instance of each of the
five message variants. -/
theorem decode_encode_witness :
    decode (encode (Message.disconnect DisconnectReason.protocolViolation)) =
      some (Message.disconnect DisconnectReason.protocolViolation) ∧
    decode (encode Message.puzzleRequest) = some Message.puzzleRequest ∧
    decode (encode (Message.puzzleResponse
        ⟨[mkByte 5], Data.object [mkByte 9]⟩)) =
      some (Message.puzzleResponse ⟨[mkByte 5], Data.object [mkByte 9]⟩) ∧
    decode (encode (Message.unconfirmedSolution [mkByte 1, mkByte 2])) =
      some (Message.unconfirmedSolution [mkByte 1, mkByte 2]) ∧
    decode (encode (Message.unconfirmedTransaction [])) =
      some (Message.unconfirmedTransaction []) :=
  ⟨decode_encode (Message.disconnect DisconnectReason.protocolViolation)
      (by decide),
   decode_encode Message.puzzleRequest (by decide),
   decode_encode
      (Message.puzzleResponse ⟨[mkByte 5], Data.object [mkByte 9]⟩)
      (by decide),
   decode_encode (Message.unconfirmedSolution [mkByte 1, mkByte 2])
      (by decide),
   decode_encode (Message.unconfirmedTransaction []) (by decide)⟩

/-- C9: whenever `AccountPrivateKey::new` returns `Ok` with a key, that key
satisfies `is_valid` for the same signature and commitment parameters — the
constructor resamples `r_pk` until validity holds and never returns an
invalid key. -/
theorem account_new_returns_valid_key {SK PS CR PK COut DK : Type}
    (ops : DPCOps SK PS CR PK COut DK)
    (generate_private_key : Except Nat SK) (read_seed : Except Nat PS)
    (rand : Nat → CR) (metadata : List Byte) (fuel : Nat)
    (k : AccountPrivateKey SK PS CR)
    (h : AccountPrivateKey.new ops generate_private_key read_seed rand
      metadata fuel = Except.ok (some k)) :
    k.is_valid ops = true := by
  unfold AccountPrivateKey.new at h
  cases hg : generate_private_key with
  | error e => rw [hg] at h; simp at h
  | ok sk =>
      rw [hg] at h
      cases hs : read_seed with
      | error e => rw [hs] at h; simp at h
      | ok seed =>
          rw [hs] at h
          simp only [Except.ok.injEq] at h
          exact sample_loop_valid ops rand fuel 1 _ k h

/-- C9, witness: over `Nat` components where validity is evenness of
`r_pk`, `new` with the identity RNG stream succeeds at fuel 3 with
`r_pk = 2`, and the theorem yields its validity. -/
theorem account_new_returns_valid_key_witness :
    (⟨1, 2, 2, []⟩ : AccountPrivateKey Nat Nat Nat).is_valid natOps = true :=
  account_new_returns_valid_key natOps (Except.ok 1) (Except.ok 2)
    (fun i => i) [] 3 ⟨1, 2, 2, []⟩ rfl

/-- C10: `from_str` (after base58 decoding) succeeds only on a 132-byte
decoding whose first 4 bytes are the private-key tag; any other length
fails first with `InvalidByteLength(len)`, and a 132-byte decoding with a
wrong tag fails with `InvalidPrefixBytes` carrying the offending 4 bytes. -/
theorem from_str_bytes_checks (data : List Byte) :
    (data.length ≠ 132 →
      from_str_bytes data =
        Except.error (AccountError.invalidByteLength data.length)) ∧
    (data.length = 132 → data.take 4 ≠ privateKeyTag →
      from_str_bytes data =
        Except.error (AccountError.invalidPrefixBytes (data.take 4))) ∧
    (∀ k, from_str_bytes data = Except.ok k →
      data.length = 132 ∧ data.take 4 = privateKeyTag) := by
  refine ⟨?_, ?_, ?_⟩
  · intro hlen
    simp [from_str_bytes, hlen]
  · intro hlen htag
    simp [from_str_bytes, hlen, htag]
  · intro k hk
    by_cases hlen : data.length = 132
    · by_cases htag : data.take 4 = privateKeyTag
      · exact ⟨hlen, htag⟩
      · simp [from_str_bytes, hlen, htag] at hk
    · simp [from_str_bytes, hlen] at hk

set_option maxRecDepth 4096 in
/-- C10, witness: the empty decoding fails with `InvalidByteLength 0`, and
a 132-byte all-zero decoding fails with `InvalidPrefixBytes` on its first 4
bytes. -/
theorem from_str_bytes_checks_witness :
    from_str_bytes [] = Except.error (AccountError.invalidByteLength 0) ∧
    from_str_bytes (List.replicate 132 (mkByte 0)) =
      Except.error (AccountError.invalidPrefixBytes
        ((List.replicate 132 (mkByte 0)).take 4)) :=
  ⟨(from_str_bytes_checks []).1 (by decide),
   (from_str_bytes_checks (List.replicate 132 (mkByte 0))).2.1 (by decide)
     (by decide)⟩

end SnarkOS
